import Mathlib

/-!
Shallow embedding of the physics core of the OPENGL-Game-Engine repository
(`PhysicsSystem.cpp`, `Component.h`, `Registry.h`, `TerrainSystem.cpp`).

Machine floats are modelled as exact rationals; the two places where the
source takes a square root (`glm::length` / `glm::normalize` in the
sphere-sphere test) are modelled over the reals with `Real.sqrt`.
C++ `static_cast<int>` on a float is truncation toward zero.
The one float division the source leaves unguarded (the impulse scalar in
`ResolveCollision`) is modelled by an `Option` result: `none` stands for the
division by zero (the C++ float division produces a non-finite value there).
-/

/-- `glm::vec3`, with scalar type `α` (`ℚ` in the exact model, `ℝ` where a
square root occurs). -/
structure Vec3 (α : Type) where
  x : α
  y : α
  z : α
deriving DecidableEq

variable {α : Type} [Field α]

/-- Componentwise vector addition (`operator+` on `glm::vec3`). -/
def Vec3.add (a b : Vec3 α) : Vec3 α := ⟨a.x + b.x, a.y + b.y, a.z + b.z⟩

/-- Componentwise vector subtraction (`operator-` on `glm::vec3`). -/
def Vec3.sub (a b : Vec3 α) : Vec3 α := ⟨a.x - b.x, a.y - b.y, a.z - b.z⟩

/-- Scalar multiple (`vec * scalar` in glm). -/
def Vec3.smul (k : α) (v : Vec3 α) : Vec3 α := ⟨k * v.x, k * v.y, k * v.z⟩

/-- Componentwise product (`vecA * vecB` in glm). -/
def Vec3.hmul (a b : Vec3 α) : Vec3 α := ⟨a.x * b.x, a.y * b.y, a.z * b.z⟩

/-- `glm::dot`. -/
def Vec3.dot (a b : Vec3 α) : α := a.x * b.x + a.y * b.y + a.z * b.z

/-- Squared euclidean length, `dot v v`. -/
def Vec3.sqLen (v : Vec3 α) : α := v.dot v

/-- `glm::length` over the reals: square root of the squared length. -/
noncomputable def Vec3.len (v : Vec3 ℝ) : ℝ := Real.sqrt v.sqLen

/-- `glm::normalize` over the reals: `v / length(v)`. -/
noncomputable def Vec3.normalize (v : Vec3 ℝ) : Vec3 ℝ := Vec3.smul (1 / v.len) v

/-- `TransformComponent` from `Component.h`. -/
structure TransformComponent where
  position : Vec3 ℚ
  rotation : Vec3 ℚ
  scale : Vec3 ℚ
deriving DecidableEq

/-- `PhysicsComponent` from `Component.h`. -/
structure PhysicsComponent where
  velocity : Vec3 ℚ
  acceleration : Vec3 ℚ
  mass : ℚ
  useGravity : Bool
  isGrounded : Bool
  restitution : ℚ
  friction : ℚ
deriving DecidableEq

/-- `ColliderType` from `Component.h`. -/
inductive ColliderType where
  | SPHERE
  | BOX
  | MESH
deriving DecidableEq

/-- `ColliderComponent` from `Component.h`. -/
structure ColliderComponent where
  type : ColliderType
  center : Vec3 ℚ
  size : Vec3 ℚ
  radius : ℚ
deriving DecidableEq

/-- `TerrainComponent` from `Component.h` (the fields the physics core reads;
the GL handles `VAO`/`VBO`/`EBO` and the mesh counters are irrelevant to it).
`heightmap` is row-major, z-major then x, as filled by
`TerrainSystem::GenerateTerrain`. -/
structure TerrainComponent where
  width : ℤ
  height : ℤ
  scale : ℚ
  heightScale : ℚ
  heightmap : List ℚ
deriving DecidableEq

/-- C++ `static_cast<int>` on a float value: truncation toward zero. -/
def ratTrunc (q : ℚ) : ℤ := if 0 ≤ q then ⌊q⌋ else ⌈q⌉

/-- `gridX` of `PhysicsSystem::GetTerrainHeightAt`:
`(worldX - terrainTransform.position.x) / terrain.scale + terrain.width / 2.0f`. -/
def gridXOf (terrain : TerrainComponent) (terrainTransform : TransformComponent)
    (worldX : ℚ) : ℚ :=
  (worldX - terrainTransform.position.x) / terrain.scale + (terrain.width : ℚ) / 2

/-- `gridZ` of `PhysicsSystem::GetTerrainHeightAt`. -/
def gridZOf (terrain : TerrainComponent) (terrainTransform : TransformComponent)
    (worldZ : ℚ) : ℚ :=
  (worldZ - terrainTransform.position.z) / terrain.scale + (terrain.height : ℚ) / 2

/-- `x0 = std::max(0, std::min(terrain.width - 1, static_cast<int>(gridX)))`. -/
def terrainX0 (terrain : TerrainComponent) (gridX : ℚ) : ℤ :=
  max 0 (min (terrain.width - 1) (ratTrunc gridX))

/-- `z0 = std::max(0, std::min(terrain.height - 1, static_cast<int>(gridZ)))`. -/
def terrainZ0 (terrain : TerrainComponent) (gridZ : ℚ) : ℤ :=
  max 0 (min (terrain.height - 1) (ratTrunc gridZ))

/-- `x1 = std::min(terrain.width - 1, x0 + 1)`. -/
def terrainX1 (terrain : TerrainComponent) (gridX : ℚ) : ℤ :=
  min (terrain.width - 1) (terrainX0 terrain gridX + 1)

/-- `z1 = std::min(terrain.height - 1, z0 + 1)`. -/
def terrainZ1 (terrain : TerrainComponent) (gridZ : ℚ) : ℤ :=
  min (terrain.height - 1) (terrainZ0 terrain gridZ + 1)

/-- `terrain.heightmap[i]`; out-of-range reads (which claim C4 rules out for
the indices the code builds) default to `0`. -/
def heightSample (terrain : TerrainComponent) (i : ℤ) : ℚ :=
  terrain.heightmap.getD i.toNat 0

/-- Clamp-and-bilinear-interpolation core of `PhysicsSystem::GetTerrainHeightAt`
as a function of the fractional grid coordinates (the body of the source from
the `x0`/`z0` clamps through the interpolation, heights already multiplied by
`heightScale`). -/
def heightAtGrid (terrain : TerrainComponent) (gridX gridZ : ℚ) : ℚ :=
  let x0 := terrainX0 terrain gridX
  let z0 := terrainZ0 terrain gridZ
  let x1 := terrainX1 terrain gridX
  let z1 := terrainZ1 terrain gridZ
  let fracX := gridX - (x0 : ℚ)
  let fracZ := gridZ - (z0 : ℚ)
  let h00 := heightSample terrain (z0 * terrain.width + x0) * terrain.heightScale
  let h10 := heightSample terrain (z0 * terrain.width + x1) * terrain.heightScale
  let h01 := heightSample terrain (z1 * terrain.width + x0) * terrain.heightScale
  let h11 := heightSample terrain (z1 * terrain.width + x1) * terrain.heightScale
  h00 * (1 - fracX) * (1 - fracZ) + h10 * fracX * (1 - fracZ) +
    h01 * (1 - fracX) * fracZ + h11 * fracX * fracZ

/-- `PhysicsSystem::GetTerrainHeightAt`. -/
def GetTerrainHeightAt (terrain : TerrainComponent) (terrainTransform : TransformComponent)
    (worldX worldZ : ℚ) : ℚ :=
  heightAtGrid terrain (gridXOf terrain terrainTransform worldX)
      (gridZOf terrain terrainTransform worldZ) +
    terrainTransform.position.y

/-- `PhysicsSystem::CheckSphereTerrainCollision`; the returned pair is the
boolean result together with the `terrainHeight` out-parameter. -/
def CheckSphereTerrainCollision (transform : TransformComponent)
    (collider : ColliderComponent) (terrain : TerrainComponent)
    (terrainTransform : TransformComponent) : Bool × ℚ :=
  let terrainHeight :=
    GetTerrainHeightAt terrain terrainTransform transform.position.x transform.position.z
  let sphereBottom := transform.position.y - collider.radius
  (decide (sphereBottom ≤ terrainHeight), terrainHeight)

/-- `PhysicsSystem::HandleTerrainCollision`, after its look-up of the first
terrain entity's transform (`terrainTransform` is that fetched transform; the
caller-side quirk that it is always the FIRST terrain entity's transform is
modelled in `terrainLoop`). Returns the mutated transform and physics
components. -/
def HandleTerrainCollision (terrain : TerrainComponent)
    (terrainTransform : TransformComponent) (transform : TransformComponent)
    (physics : PhysicsComponent) (collider : ColliderComponent) :
    TransformComponent × PhysicsComponent :=
  let res :=
    match collider.type with
    | ColliderType.SPHERE =>
        CheckSphereTerrainCollision transform collider terrain terrainTransform
    | ColliderType.BOX =>
        CheckSphereTerrainCollision transform collider terrain terrainTransform
    | ColliderType.MESH =>
        CheckSphereTerrainCollision transform collider terrain terrainTransform
  let isColliding := res.1
  let terrainHeight := res.2
  if isColliding then
    let objectBottom := transform.position.y - collider.radius
    if objectBottom ≤ terrainHeight ∧ physics.velocity.y < 0 then
      let vy := -physics.velocity.y * physics.restitution
      ({ transform with
          position := { transform.position with y := terrainHeight + collider.radius } },
       { physics with
          velocity := ⟨physics.velocity.x * physics.friction,
                       if |vy| < 1/10 then 0 else vy,
                       physics.velocity.z * physics.friction⟩,
          isGrounded := true })
    else (transform, physics)
  else (transform, { physics with isGrounded := false })

/-- The terrain-collision loop of `PhysicsSystem::Update` for one dynamic
entity: `terrains` is the store's enumeration of entities holding both a
`TerrainComponent` and a `TransformComponent`. The loop calls
`HandleTerrainCollision` once per terrain entity with that entity's terrain
component, but inside the handler the terrain transform is re-fetched as
`terrainEntities[0]`, i.e. always the first entity's transform. -/
def terrainLoop (terrains : List (TerrainComponent × TransformComponent))
    (collider : ColliderComponent) (s : TransformComponent × PhysicsComponent) :
    TransformComponent × PhysicsComponent :=
  match terrains with
  | [] => s
  | t0 :: _ =>
      terrains.foldl (fun s t => HandleTerrainCollision t.1 t0.2 s.1 s.2 collider) s

/-- `PhysicsSystem::ApplyGravity`: `velocity += gravity * deltaTime`. -/
def ApplyGravity (gravity : Vec3 ℚ) (physics : PhysicsComponent) (deltaTime : ℚ) :
    PhysicsComponent :=
  { physics with velocity := physics.velocity.add (Vec3.smul deltaTime gravity) }

/-- `PhysicsSystem::Integrate`: `position += velocity * deltaTime`. -/
def Integrate (transform : TransformComponent) (physics : PhysicsComponent)
    (deltaTime : ℚ) : TransformComponent :=
  { transform with position := transform.position.add (Vec3.smul deltaTime physics.velocity) }

/-- `PhysicsSystem::CheckBoxBoxCollision`. `some (normal, penetration)` models
the `true` return with the two out-parameters; `none` models `false`. -/
def CheckBoxBoxCollision (transformA : TransformComponent) (colliderA : ColliderComponent)
    (transformB : TransformComponent) (colliderB : ColliderComponent) :
    Option (Vec3 ℚ × ℚ) :=
  let halfSizeA := Vec3.smul (1 / 2) (colliderA.size.hmul transformA.scale)
  let halfSizeB := Vec3.smul (1 / 2) (colliderB.size.hmul transformB.scale)
  let delta := transformB.position.sub transformA.position
  let ox := halfSizeA.x + halfSizeB.x - |delta.x|
  let oy := halfSizeA.y + halfSizeB.y - |delta.y|
  let oz := halfSizeA.z + halfSizeB.z - |delta.z|
  if 0 < ox ∧ 0 < oy ∧ 0 < oz then
    if ox < oy ∧ ox < oz then
      some (⟨if 0 < delta.x then 1 else -1, 0, 0⟩, ox)
    else if oy < oz then
      some (⟨0, if 0 < delta.y then 1 else -1, 0⟩, oy)
    else
      some (⟨0, 0, if 0 < delta.z then 1 else -1⟩, oz)
  else none

/-- The four components `ResolveCollision` mutates, bundled. -/
structure PairState where
  transformA : TransformComponent
  physicsA : PhysicsComponent
  transformB : TransformComponent
  physicsB : PhysicsComponent
deriving DecidableEq

/-- `PhysicsSystem::ResolveCollision`. The positional separation is guarded by
`totalMass > 0` in the source, but the impulse scalar's division by
`massA + massB` is NOT guarded: a zero denominator there is modelled as
`none` (the C++ float division yields a non-finite value that then reaches
both velocities). `glm::normalize(tangent)` occurs once inside
`frictionImpulse` and once inside `frictionVector`, so the exact composite
divides the friction vector by the squared tangent length; the guard
`glm::length(tangent) > 0.001f` is equivalently `sqLen > (1/1000)^2` since
both sides are nonnegative. -/
def ResolveCollision (s : PairState) (collisionNormal : Vec3 ℚ)
    (penetrationDepth : ℚ) : Option PairState :=
  let totalMass := s.physicsA.mass + s.physicsB.mass
  let tA :=
    if 0 < totalMass then
      { s.transformA with
          position := s.transformA.position.sub
            (Vec3.smul (penetrationDepth * (s.physicsB.mass / totalMass)) collisionNormal) }
    else s.transformA
  let tB :=
    if 0 < totalMass then
      { s.transformB with
          position := s.transformB.position.add
            (Vec3.smul (penetrationDepth * (s.physicsA.mass / totalMass)) collisionNormal) }
    else s.transformB
  let relativeVelocity := s.physicsB.velocity.sub s.physicsA.velocity
  let velocityAlongNormal := relativeVelocity.dot collisionNormal
  if 0 < velocityAlongNormal then
    some { s with transformA := tA, transformB := tB }
  else if s.physicsA.mass + s.physicsB.mass = 0 then
    none
  else
    let restitution := min s.physicsA.restitution s.physicsB.restitution
    let impulseScalar :=
      -(1 + restitution) * velocityAlongNormal / (s.physicsA.mass + s.physicsB.mass)
    let impulse := Vec3.smul impulseScalar collisionNormal
    let vA1 := s.physicsA.velocity.sub (Vec3.smul s.physicsB.mass impulse)
    let vB1 := s.physicsB.velocity.add (Vec3.smul s.physicsA.mass impulse)
    let tangent := relativeVelocity.sub (Vec3.smul velocityAlongNormal collisionNormal)
    let v2 :=
      if 1 / 1000000 < tangent.sqLen then
        let friction := min s.physicsA.friction s.physicsB.friction
        let frictionVector :=
          Vec3.smul (relativeVelocity.dot tangent * friction / tangent.sqLen) tangent
        (vA1.add (Vec3.smul s.physicsB.mass frictionVector),
         vB1.sub (Vec3.smul s.physicsA.mass frictionVector))
      else (vA1, vB1)
  let groundedA :=
    if 7 / 10 < collisionNormal.y ∧ v2.1.y ≤ 0 then true else s.physicsA.isGrounded
  let groundedB :=
    if 7 / 10 < collisionNormal.y ∧ v2.2.y ≤ 0 then true else s.physicsB.isGrounded
  some { transformA := tA,
         physicsA := { s.physicsA with velocity := v2.1, isGrounded := groundedA },
         transformB := tB,
         physicsB := { s.physicsB with velocity := v2.2, isGrounded := groundedB } }

/-- `PhysicsSystem::CheckSphereSphereCollision`, over the reals because of
`glm::length` / `glm::normalize`. `some (normal, penetration)` models the
`true` return with the two out-parameters. -/
noncomputable def CheckSphereSphereCollision (posA posB : Vec3 ℝ)
    (radiusA radiusB : ℝ) : Option (Vec3 ℝ × ℝ) :=
  let delta := posB.sub posA
  let distance := delta.len
  let minDistance := radiusA + radiusB
  if distance < minDistance then some (delta.normalize, minDistance - distance)
  else none

/-! ### Helper lemmas about the grid clamping -/

theorem ratTrunc_intCast (n : ℤ) : ratTrunc (n : ℚ) = n := by
  unfold ratTrunc
  split
  · exact Int.floor_intCast n
  · exact Int.ceil_intCast n

theorem terrainX0_high (terrain : TerrainComponent) (gx : ℚ)
    (hw : 1 ≤ terrain.width) (h : (terrain.width : ℚ) - 1 ≤ gx) :
    terrainX0 terrain gx = terrain.width - 1 := by
  have hwq : ((terrain.width - 1 : ℤ) : ℚ) ≤ gx := by push_cast; linarith
  have h0 : (0 : ℚ) ≤ gx := by
    refine le_trans ?_ hwq
    exact_mod_cast (by omega : (0 : ℤ) ≤ terrain.width - 1)
  have hfl : terrain.width - 1 ≤ ⌊gx⌋ := Int.le_floor.mpr hwq
  unfold terrainX0 ratTrunc
  rw [if_pos h0]
  omega

theorem terrainX1_high (terrain : TerrainComponent) (gx : ℚ)
    (hw : 1 ≤ terrain.width) (h : (terrain.width : ℚ) - 1 ≤ gx) :
    terrainX1 terrain gx = terrain.width - 1 := by
  unfold terrainX1
  rw [terrainX0_high terrain gx hw h]
  omega

theorem terrainZ0_high (terrain : TerrainComponent) (gz : ℚ)
    (hh : 1 ≤ terrain.height) (h : (terrain.height : ℚ) - 1 ≤ gz) :
    terrainZ0 terrain gz = terrain.height - 1 := by
  have hhq : ((terrain.height - 1 : ℤ) : ℚ) ≤ gz := by push_cast; linarith
  have h0 : (0 : ℚ) ≤ gz := by
    refine le_trans ?_ hhq
    exact_mod_cast (by omega : (0 : ℤ) ≤ terrain.height - 1)
  have hfl : terrain.height - 1 ≤ ⌊gz⌋ := Int.le_floor.mpr hhq
  unfold terrainZ0 ratTrunc
  rw [if_pos h0]
  omega

theorem terrainZ1_high (terrain : TerrainComponent) (gz : ℚ)
    (hh : 1 ≤ terrain.height) (h : (terrain.height : ℚ) - 1 ≤ gz) :
    terrainZ1 terrain gz = terrain.height - 1 := by
  unfold terrainZ1
  rw [terrainZ0_high terrain gz hh h]
  omega

/-- Beyond the high x edge the two sampled columns coincide, so the bilinear
interpolation degenerates to the edge column regardless of the (possibly
huge) fractional remainder. -/
theorem heightAtGrid_clamp_x (terrain : TerrainComponent) (gx gz : ℚ)
    (hw : 1 ≤ terrain.width) (h : (terrain.width : ℚ) - 1 ≤ gx) :
    heightAtGrid terrain gx gz = heightAtGrid terrain ((terrain.width : ℚ) - 1) gz := by
  have e1 := terrainX0_high terrain gx hw h
  have e2 := terrainX1_high terrain gx hw h
  have e3 := terrainX0_high terrain ((terrain.width : ℚ) - 1) hw (le_refl _)
  have e4 := terrainX1_high terrain ((terrain.width : ℚ) - 1) hw (le_refl _)
  simp only [heightAtGrid, e1, e2, e3, e4]
  push_cast
  ring

/-- Beyond the high z edge the two sampled rows coincide. -/
theorem heightAtGrid_clamp_z (terrain : TerrainComponent) (gx gz : ℚ)
    (hh : 1 ≤ terrain.height) (h : (terrain.height : ℚ) - 1 ≤ gz) :
    heightAtGrid terrain gx gz = heightAtGrid terrain gx ((terrain.height : ℚ) - 1) := by
  have e1 := terrainZ0_high terrain gz hh h
  have e2 := terrainZ1_high terrain gz hh h
  have e3 := terrainZ0_high terrain ((terrain.height : ℚ) - 1) hh (le_refl _)
  have e4 := terrainZ1_high terrain ((terrain.height : ℚ) - 1) hh (le_refl _)
  simp only [heightAtGrid, e1, e2, e3, e4]
  push_cast
  ring

theorem terrainX0_bounds (terrain : TerrainComponent) (gx : ℚ)
    (hw : 1 ≤ terrain.width) :
    0 ≤ terrainX0 terrain gx ∧ terrainX0 terrain gx ≤ terrain.width - 1 := by
  unfold terrainX0
  generalize ratTrunc gx = t
  omega

theorem terrainX1_bounds (terrain : TerrainComponent) (gx : ℚ)
    (hw : 1 ≤ terrain.width) :
    0 ≤ terrainX1 terrain gx ∧ terrainX1 terrain gx ≤ terrain.width - 1 := by
  unfold terrainX1 terrainX0
  generalize ratTrunc gx = t
  omega

theorem terrainZ0_bounds (terrain : TerrainComponent) (gz : ℚ)
    (hh : 1 ≤ terrain.height) :
    0 ≤ terrainZ0 terrain gz ∧ terrainZ0 terrain gz ≤ terrain.height - 1 := by
  unfold terrainZ0
  generalize ratTrunc gz = t
  omega

theorem terrainZ1_bounds (terrain : TerrainComponent) (gz : ℚ)
    (hh : 1 ≤ terrain.height) :
    0 ≤ terrainZ1 terrain gz ∧ terrainZ1 terrain gz ≤ terrain.height - 1 := by
  unfold terrainZ1 terrainZ0
  generalize ratTrunc gz = t
  omega

theorem terrainIndex_bounds {w h z x : ℤ} (hw : 1 ≤ w) (hh : 1 ≤ h)
    (hx0 : 0 ≤ x) (hx1 : x ≤ w - 1) (hz0 : 0 ≤ z) (hz1 : z ≤ h - 1) :
    0 ≤ z * w + x ∧ z * w + x ≤ w * h - 1 := by
  constructor
  · have hzw : 0 ≤ z * w := mul_nonneg hz0 (by omega)
    omega
  · nlinarith [mul_le_mul_of_nonneg_right hz1 (show (0 : ℤ) ≤ w by omega)]

/-- The property claim C4 asserts of each of the four heightmap indices: it is
nonnegative, at most `width * height - 1`, and in range for the heightmap. -/
def heightmapIndexOk (terrain : TerrainComponent) (i : ℤ) : Prop :=
  0 ≤ i ∧ i ≤ terrain.width * terrain.height - 1 ∧
    i.toNat < terrain.heightmap.length

/-! ### Concrete example data used by witnesses and counterexamples -/

/-- A 2×2 terrain with heights `(0,0)=0, (1,0)=2, (0,1)=0, (1,1)=2`,
`scale = 1`, `heightScale = 1`. -/
def exTerrain : TerrainComponent := ⟨2, 2, 1, 1, [0, 2, 0, 2]⟩

/-- A terrain transform at the world origin. -/
def exTT : TransformComponent := ⟨⟨0, 0, 0⟩, ⟨0, 0, 0⟩, ⟨1, 1, 1⟩⟩

/-! ### Claim C2 -/

/-- C2, counterexample: the query `(worldX, worldZ) = (-3/2, -1)` maps to the
fractional grid coordinate `(-1/2, 0)`, below the grid on the x axis. The
claim says the result is the nearest edge sample's height (sample `(0,0)`,
value `0`, so `0 * heightScale + 0`); the code instead truncates `-1/2` to
grid column `0`, keeps the *negative* fractional remainder `-1/2`, and
bilinearly extrapolates to `-1`. -/
theorem C2_offgrid_counterexample :
    GetTerrainHeightAt exTerrain exTT (-3/2) (-1) = -1 ∧
    ¬ GetTerrainHeightAt exTerrain exTT (-3/2) (-1) =
        heightSample exTerrain 0 * exTerrain.heightScale + exTT.position.y := by
  have h1 : gridXOf exTerrain exTT (-3/2) = -1/2 := by
    norm_num [gridXOf, exTerrain, exTT]
  have h2 : gridZOf exTerrain exTT (-1) = 0 := by
    norm_num [gridZOf, exTerrain, exTT]
  have hx0 : terrainX0 exTerrain (-1/2) = 0 := by
    norm_num [terrainX0, ratTrunc, exTerrain, min_def, max_def]
  have hx1 : terrainX1 exTerrain (-1/2) = 1 := by
    norm_num [terrainX1, terrainX0, ratTrunc, exTerrain, min_def, max_def]
  have hz0 : terrainZ0 exTerrain 0 = 0 := by
    norm_num [terrainZ0, ratTrunc, exTerrain, min_def, max_def]
  have hz1 : terrainZ1 exTerrain 0 = 1 := by
    norm_num [terrainZ1, terrainZ0, ratTrunc, exTerrain, min_def, max_def]
  unfold GetTerrainHeightAt heightAtGrid
  rw [h1, h2, hx0, hx1, hz0, hz1]
  norm_num [heightSample, exTerrain, exTT]

/-- C2, amended: grid *indices* are always clamped into range (claim C4), and
a query whose fractional grid coordinate is at or above `dimension - 1` on an
axis returns the same height as the query clamped to that edge (the two
sampled columns resp. rows coincide there). But a query with fractional grid
coordinate below `0` keeps index `0` with a *negative* fractional remainder
and extrapolates beyond the edge samples instead of returning the nearest
edge height. -/
theorem C2_amended_high_edge_clamped (terrain : TerrainComponent)
    (tt : TransformComponent) (worldX worldZ : ℚ)
    (hw : 1 ≤ terrain.width) (hh : 1 ≤ terrain.height) :
    ((terrain.width : ℚ) - 1 ≤ gridXOf terrain tt worldX →
      GetTerrainHeightAt terrain tt worldX worldZ =
        heightAtGrid terrain ((terrain.width : ℚ) - 1) (gridZOf terrain tt worldZ) +
          tt.position.y) ∧
    ((terrain.height : ℚ) - 1 ≤ gridZOf terrain tt worldZ →
      GetTerrainHeightAt terrain tt worldX worldZ =
        heightAtGrid terrain (gridXOf terrain tt worldX) ((terrain.height : ℚ) - 1) +
          tt.position.y) := by
  constructor
  · intro h
    unfold GetTerrainHeightAt
    rw [heightAtGrid_clamp_x terrain _ _ hw h]
  · intro h
    unfold GetTerrainHeightAt
    rw [heightAtGrid_clamp_z terrain _ _ hh h]

/-- Witness for the amended C2 at a concrete high-side query: `worldX = 5`
maps to fractional grid column `6 ≥ width - 1 = 1`, and the returned height
equals the edge-clamped height (both are `2`). -/
theorem C2_amended_high_edge_clamped_witness :
    (1 ≤ exTerrain.width) ∧ ((exTerrain.width : ℚ) - 1 ≤ gridXOf exTerrain exTT 5) ∧
    GetTerrainHeightAt exTerrain exTT 5 0 =
      heightAtGrid exTerrain ((exTerrain.width : ℚ) - 1) (gridZOf exTerrain exTT 0) +
        exTT.position.y :=
  ⟨by decide, by norm_num [gridXOf, exTerrain, exTT],
    (C2_amended_high_edge_clamped exTerrain exTT 5 0 (by decide) (by decide)).1
      (by norm_num [gridXOf, exTerrain, exTT])⟩

/-! ### Claim C4 -/

/-- C4: for every query, if `width ≥ 1`, `height ≥ 1` and the heightmap has
`width * height` entries (as `TerrainSystem::GenerateTerrain` guarantees),
then all four heightmap indices computed by `GetTerrainHeightAt`
(`z0*width+x0`, `z0*width+x1`, `z1*width+x0`, `z1*width+x1`) lie within
`[0, width*height - 1]` and in range for the heightmap, so no out-of-bounds
access occurs. -/
theorem C4_heightmap_indices_in_bounds (terrain : TerrainComponent)
    (tt : TransformComponent) (worldX worldZ : ℚ)
    (hw : 1 ≤ terrain.width) (hh : 1 ≤ terrain.height)
    (hlen : (terrain.heightmap.length : ℤ) = terrain.width * terrain.height) :
    heightmapIndexOk terrain
      (terrainZ0 terrain (gridZOf terrain tt worldZ) * terrain.width +
        terrainX0 terrain (gridXOf terrain tt worldX)) ∧
    heightmapIndexOk terrain
      (terrainZ0 terrain (gridZOf terrain tt worldZ) * terrain.width +
        terrainX1 terrain (gridXOf terrain tt worldX)) ∧
    heightmapIndexOk terrain
      (terrainZ1 terrain (gridZOf terrain tt worldZ) * terrain.width +
        terrainX0 terrain (gridXOf terrain tt worldX)) ∧
    heightmapIndexOk terrain
      (terrainZ1 terrain (gridZOf terrain tt worldZ) * terrain.width +
        terrainX1 terrain (gridXOf terrain tt worldX)) := by
  obtain ⟨hx00, hx01⟩ := terrainX0_bounds terrain (gridXOf terrain tt worldX) hw
  obtain ⟨hx10, hx11⟩ := terrainX1_bounds terrain (gridXOf terrain tt worldX) hw
  obtain ⟨hz00, hz01⟩ := terrainZ0_bounds terrain (gridZOf terrain tt worldZ) hh
  obtain ⟨hz10, hz11⟩ := terrainZ1_bounds terrain (gridZOf terrain tt worldZ) hh
  refine ⟨?_, ?_, ?_, ?_⟩
  · obtain ⟨g1, g2⟩ := terrainIndex_bounds hw hh hx00 hx01 hz00 hz01
    refine ⟨g1, g2, ?_⟩
    have g3 : terrainZ0 terrain (gridZOf terrain tt worldZ) * terrain.width +
        terrainX0 terrain (gridXOf terrain tt worldX) ≤
        (terrain.heightmap.length : ℤ) - 1 := by linarith
    omega
  · obtain ⟨g1, g2⟩ := terrainIndex_bounds hw hh hx10 hx11 hz00 hz01
    refine ⟨g1, g2, ?_⟩
    have g3 : terrainZ0 terrain (gridZOf terrain tt worldZ) * terrain.width +
        terrainX1 terrain (gridXOf terrain tt worldX) ≤
        (terrain.heightmap.length : ℤ) - 1 := by linarith
    omega
  · obtain ⟨g1, g2⟩ := terrainIndex_bounds hw hh hx00 hx01 hz10 hz11
    refine ⟨g1, g2, ?_⟩
    have g3 : terrainZ1 terrain (gridZOf terrain tt worldZ) * terrain.width +
        terrainX0 terrain (gridXOf terrain tt worldX) ≤
        (terrain.heightmap.length : ℤ) - 1 := by linarith
    omega
  · obtain ⟨g1, g2⟩ := terrainIndex_bounds hw hh hx10 hx11 hz10 hz11
    refine ⟨g1, g2, ?_⟩
    have g3 : terrainZ1 terrain (gridZOf terrain tt worldZ) * terrain.width +
        terrainX1 terrain (gridXOf terrain tt worldX) ≤
        (terrain.heightmap.length : ℤ) - 1 := by linarith
    omega

/-- Witness for C4 at a far off-grid query (`worldX = 1000000`,
`worldZ = -1000000`). -/
theorem C4_heightmap_indices_in_bounds_witness :
    (1 ≤ exTerrain.width) ∧
    ((exTerrain.heightmap.length : ℤ) = exTerrain.width * exTerrain.height) ∧
    heightmapIndexOk exTerrain
      (terrainZ0 exTerrain (gridZOf exTerrain exTT (-1000000)) * exTerrain.width +
        terrainX0 exTerrain (gridXOf exTerrain exTT 1000000)) :=
  ⟨by decide, by decide,
    (C4_heightmap_indices_in_bounds exTerrain exTT 1000000 (-1000000)
      (by decide) (by decide) (by decide)).1⟩

/-! ### Branch equations for `HandleTerrainCollision` -/

/-- Bounce branch: colliding, bottom at/below the sampled height, moving
down. -/
theorem handleTerrain_bounce_of (terrain : TerrainComponent)
    (tt t : TransformComponent) (p : PhysicsComponent) (c : ColliderComponent)
    (th : ℚ)
    (hth : GetTerrainHeightAt terrain tt t.position.x t.position.z = th)
    (hcol : t.position.y - c.radius ≤ th) (hv : p.velocity.y < 0) :
    HandleTerrainCollision terrain tt t p c =
      ({ t with position := { t.position with y := th + c.radius } },
       { p with
          velocity := ⟨p.velocity.x * p.friction,
            if |(-p.velocity.y * p.restitution)| < 1/10 then 0
            else -p.velocity.y * p.restitution,
            p.velocity.z * p.friction⟩,
          isGrounded := true }) := by
  cases hty : c.type <;>
    simp only [HandleTerrainCollision, CheckSphereTerrainCollision, hty, hth,
      decide_eq_true_eq] <;>
    rw [if_pos hcol, if_pos ⟨hcol, hv⟩]

/-- Colliding but not moving down: the body of the `if` is skipped and
nothing is mutated. -/
theorem handleTerrain_still_of (terrain : TerrainComponent)
    (tt t : TransformComponent) (p : PhysicsComponent) (c : ColliderComponent)
    (th : ℚ)
    (hth : GetTerrainHeightAt terrain tt t.position.x t.position.z = th)
    (hcol : t.position.y - c.radius ≤ th) (hv : 0 ≤ p.velocity.y) :
    HandleTerrainCollision terrain tt t p c = (t, p) := by
  cases hty : c.type <;>
    simp only [HandleTerrainCollision, CheckSphereTerrainCollision, hty, hth,
      decide_eq_true_eq] <;>
    rw [if_pos hcol, if_neg (fun hand => not_lt.mpr hv hand.2)]

/-- Not colliding: only `isGrounded` is cleared. -/
theorem handleTerrain_miss_of (terrain : TerrainComponent)
    (tt t : TransformComponent) (p : PhysicsComponent) (c : ColliderComponent)
    (th : ℚ)
    (hth : GetTerrainHeightAt terrain tt t.position.x t.position.z = th)
    (hmiss : ¬ t.position.y - c.radius ≤ th) :
    HandleTerrainCollision terrain tt t p c =
      (t, { p with isGrounded := false }) := by
  cases hty : c.type <;>
    simp only [HandleTerrainCollision, CheckSphereTerrainCollision, hty, hth,
      decide_eq_true_eq] <;>
    rw [if_neg hmiss]

/-! ### Claim C7 -/

/-- C7: when the sphere-terrain test reports a collision, the object's bottom
is at/below the sampled height and the body is moving downward, the handler
snaps `position.y` to `terrainHeight + radius`, reflects `velocity.y` by
`-velocity.y * restitution` (then zeroes it when its magnitude is below
`0.1`), multiplies `velocity.x`/`velocity.z` by `friction`, and sets
`isGrounded`. -/
theorem C7_terrain_bounce_response (terrain : TerrainComponent)
    (tt t : TransformComponent) (p : PhysicsComponent) (c : ColliderComponent)
    (hcol : t.position.y - c.radius ≤
      GetTerrainHeightAt terrain tt t.position.x t.position.z)
    (hv : p.velocity.y < 0) :
    HandleTerrainCollision terrain tt t p c =
      ({ t with position := { t.position with
            y := GetTerrainHeightAt terrain tt t.position.x t.position.z +
              c.radius } },
       { p with
          velocity := ⟨p.velocity.x * p.friction,
            if |(-p.velocity.y * p.restitution)| < 1/10 then 0
            else -p.velocity.y * p.restitution,
            p.velocity.z * p.friction⟩,
          isGrounded := true }) :=
  handleTerrain_bounce_of terrain tt t p c _ rfl hcol hv

/-! ### Claim C10 -/

/-- C10: when the sphere-terrain test reports a collision but the body is not
moving downward (`velocity.y ≥ 0`), the handler mutates nothing: position,
velocity and `isGrounded` keep their prior values (in particular a stale
`isGrounded = true` is not cleared). -/
theorem C10_colliding_upward_no_mutation (terrain : TerrainComponent)
    (tt t : TransformComponent) (p : PhysicsComponent) (c : ColliderComponent)
    (hcol : t.position.y - c.radius ≤
      GetTerrainHeightAt terrain tt t.position.x t.position.z)
    (hv : 0 ≤ p.velocity.y) :
    HandleTerrainCollision terrain tt t p c = (t, p) :=
  handleTerrain_still_of terrain tt t p c _ rfl hcol hv

/-! ### Claim C3 -/

/-- On a 1×1 heightfield every query clamps to the single sample, whatever
the world coordinates, so the sampled height is `v * heightScale` plus the
transform's world y. -/
theorem GetTerrainHeightAt_one_by_one (sc hs v : ℚ) (tt : TransformComponent)
    (wx wz : ℚ) :
    GetTerrainHeightAt ⟨1, 1, sc, hs, [v]⟩ tt wx wz = v * hs + tt.position.y := by
  have hx0 : terrainX0 ⟨1, 1, sc, hs, [v]⟩ (gridXOf ⟨1, 1, sc, hs, [v]⟩ tt wx) = 0 := by
    unfold terrainX0
    generalize ratTrunc _ = t
    show max 0 (min ((1 : ℤ) - 1) t) = 0
    omega
  have hz0 : terrainZ0 ⟨1, 1, sc, hs, [v]⟩ (gridZOf ⟨1, 1, sc, hs, [v]⟩ tt wz) = 0 := by
    unfold terrainZ0
    generalize ratTrunc _ = t
    show max 0 (min ((1 : ℤ) - 1) t) = 0
    omega
  have hx1 : terrainX1 ⟨1, 1, sc, hs, [v]⟩ (gridXOf ⟨1, 1, sc, hs, [v]⟩ tt wx) = 0 := by
    unfold terrainX1
    rw [hx0]
    show min ((1 : ℤ) - 1) (0 + 1) = 0
    omega
  have hz1 : terrainZ1 ⟨1, 1, sc, hs, [v]⟩ (gridZOf ⟨1, 1, sc, hs, [v]⟩ tt wz) = 0 := by
    unfold terrainZ1
    rw [hz0]
    show min ((1 : ℤ) - 1) (0 + 1) = 0
    omega
  unfold GetTerrainHeightAt heightAtGrid
  rw [hx0, hx1, hz0, hz1]
  simp only [heightSample]
  norm_num
  ring

/-- A flat 1×1 terrain of height `0`. -/
def terrA : TerrainComponent := ⟨1, 1, 1, 1, [0]⟩

/-- A 1×1 terrain of height `-10`. -/
def terrB : TerrainComponent := ⟨1, 1, 1, 1, [-10]⟩

/-- A second, distinct terrain transform (used to show later entities'
transforms are ignored). -/
def ttFar : TransformComponent := ⟨⟨5, 7, 9⟩, ⟨0, 0, 0⟩, ⟨1, 1, 1⟩⟩

/-- A sphere collider of radius `1/2`. -/
def exCollider : ColliderComponent := ⟨ColliderType.SPHERE, ⟨0, 0, 0⟩, ⟨1, 1, 1⟩, 1/2⟩

/-- A falling body just above/inside `terrA`. -/
def exBodyT : TransformComponent := ⟨⟨0, 2/5, 0⟩, ⟨0, 0, 0⟩, ⟨1, 1, 1⟩⟩

/-- Its physics state: moving straight down, restitution `0`, friction `1`. -/
def exBodyP : PhysicsComponent := ⟨⟨0, -1, 0⟩, ⟨0, 0, 0⟩, 1, true, false, 0, 1⟩

/-- `exBodyT` after the bounce against `terrA`. -/
def exBodyT1 : TransformComponent := ⟨⟨0, 1/2, 0⟩, ⟨0, 0, 0⟩, ⟨1, 1, 1⟩⟩

/-- `exBodyP` after the bounce against `terrA`: at rest and grounded. -/
def exBodyP1 : PhysicsComponent := ⟨⟨0, 0, 0⟩, ⟨0, 0, 0⟩, 1, true, true, 0, 1⟩

/-- C3, counterexample: with two terrain entities in the store, the body
lands on the first terrain (grounded becomes true), but the loop then runs
the handler again with the SECOND terrain's heightfield, misses it, and
clears `isGrounded` — so the effect is NOT as if the later terrain entity did
not exist. -/
theorem C3_later_terrain_not_ignored :
    (terrainLoop [(terrA, exTT), (terrB, exTT)] exCollider
        (exBodyT, exBodyP)).2.isGrounded = false ∧
    (terrainLoop [(terrA, exTT)] exCollider
        (exBodyT, exBodyP)).2.isGrounded = true := by
  have hA : GetTerrainHeightAt terrA exTT exBodyT.position.x exBodyT.position.z = 0 := by
    simpa [terrA, exTT] using
      GetTerrainHeightAt_one_by_one 1 1 0 exTT exBodyT.position.x exBodyT.position.z
  have e1 : HandleTerrainCollision terrA exTT exBodyT exBodyP exCollider =
      (exBodyT1, exBodyP1) := by
    rw [handleTerrain_bounce_of terrA exTT exBodyT exBodyP exCollider 0 hA
      (by norm_num [exBodyT, exCollider]) (by norm_num [exBodyP])]
    norm_num [exBodyT, exBodyP, exCollider, exBodyT1, exBodyP1]
  have hB : GetTerrainHeightAt terrB exTT exBodyT1.position.x exBodyT1.position.z = -10 := by
    simpa [terrB, exTT] using
      GetTerrainHeightAt_one_by_one 1 1 (-10) exTT exBodyT1.position.x exBodyT1.position.z
  have e2 : HandleTerrainCollision terrB exTT exBodyT1 exBodyP1 exCollider =
      (exBodyT1, { exBodyP1 with isGrounded := false }) :=
    handleTerrain_miss_of terrB exTT exBodyT1 exBodyP1 exCollider (-10) hB
      (by norm_num [exBodyT1, exCollider])
  constructor
  · simp only [terrainLoop, List.foldl_cons, List.foldl_nil]
    rw [e1]
    rw [show ((exBodyT1, exBodyP1) :
        TransformComponent × PhysicsComponent).1 = exBodyT1 from rfl]
    rw [show ((exBodyT1, exBodyP1) :
        TransformComponent × PhysicsComponent).2 = exBodyP1 from rfl]
    rw [e2]
  · simp only [terrainLoop, List.foldl_cons, List.foldl_nil]
    rw [e1]
    rfl

/-- `List.foldl` over pairs whose step function reads only the first
component of each element depends only on the list of first components. -/
theorem foldl_fst_only
    (g : (TransformComponent × PhysicsComponent) → TerrainComponent →
      TransformComponent × PhysicsComponent) :
    ∀ (l l' : List (TerrainComponent × TransformComponent)),
      l.map Prod.fst = l'.map Prod.fst →
      ∀ s, l.foldl (fun s t => g s t.1) s = l'.foldl (fun s t => g s t.1) s := by
  intro l
  induction l with
  | nil =>
      intro l' h s
      cases l' with
      | nil => rfl
      | cons b bs => simp at h
  | cons a as ih =>
      intro l' h s
      cases l' with
      | nil => simp at h
      | cons b bs =>
          simp only [List.map_cons, List.cons.injEq] at h
          simp only [List.foldl_cons]
          rw [h.1]
          exact ih bs h.2 _

/-- C3, amended: the terrain loop runs the handler once per terrain entity
with that entity's heightfield component, but always with the FIRST terrain
entity's transform; consequently the result depends only on the list of
terrain components and the first entity's transform — later entities'
transforms are ignored, while their heightfields are not. -/
theorem C3_amended_later_transforms_ignored
    (ts ts' : List (TerrainComponent × TransformComponent))
    (hcomp : ts.map Prod.fst = ts'.map Prod.fst)
    (hhead : ts.head?.map Prod.snd = ts'.head?.map Prod.snd)
    (collider : ColliderComponent) (s : TransformComponent × PhysicsComponent) :
    terrainLoop ts collider s = terrainLoop ts' collider s := by
  cases ts with
  | nil =>
      cases ts' with
      | nil => rfl
      | cons b bs => simp at hcomp
  | cons a as =>
      cases ts' with
      | nil => simp at hcomp
      | cons b bs =>
          have htr : a.2 = b.2 := by simpa using hhead
          simp only [terrainLoop]
          rw [htr]
          exact foldl_fst_only
            (fun s c => HandleTerrainCollision c b.2 s.1 s.2 collider)
            (a :: as) (b :: bs) hcomp s

/-- Witness for the amended C3: changing the SECOND terrain entity's
transform (from `exTT` to `ttFar`) does not change the loop's result. -/
theorem C3_amended_later_transforms_ignored_witness :
    ([(terrA, exTT), (terrB, exTT)].map Prod.fst =
      [(terrA, exTT), (terrB, ttFar)].map Prod.fst) ∧
    terrainLoop [(terrA, exTT), (terrB, exTT)] exCollider (exBodyT, exBodyP) =
      terrainLoop [(terrA, exTT), (terrB, ttFar)] exCollider (exBodyT, exBodyP) :=
  ⟨rfl, C3_amended_later_transforms_ignored _ _ rfl rfl exCollider
    (exBodyT, exBodyP)⟩

/-! ### Claim C1 -/

/-- C1 (code bug): the source guards only the positional separation with
`totalMass > 0`; the impulse scalar's division by `massA + massB` is NOT
guarded. Every non-separating contact (`v_n ≤ 0`) between bodies of total
mass zero reaches the division by zero — modelled as `none` — instead of
skipping the impulse step and leaving the velocities unchanged as the spec
requires. -/
theorem C1_zero_mass_impulse_division_reached (s : PairState) (n : Vec3 ℚ)
    (d : ℚ) (hm : s.physicsA.mass + s.physicsB.mass = 0)
    (hv : Vec3.dot (Vec3.sub s.physicsB.velocity s.physicsA.velocity) n ≤ 0) :
    ResolveCollision s n d = none := by
  simp only [ResolveCollision]
  rw [if_neg (not_lt.mpr hv), if_pos hm]

/-- A contact between two zero-mass bodies approaching each other. -/
def exZeroMassPair : PairState :=
  { transformA := ⟨⟨0, 0, 0⟩, ⟨0, 0, 0⟩, ⟨1, 1, 1⟩⟩,
    physicsA := ⟨⟨0, 0, 0⟩, ⟨0, 0, 0⟩, 0, false, false, 3/10, 8/10⟩,
    transformB := ⟨⟨0, 9/10, 0⟩, ⟨0, 0, 0⟩, ⟨1, 1, 1⟩⟩,
    physicsB := ⟨⟨0, -1, 0⟩, ⟨0, 0, 0⟩, 0, false, false, 3/10, 8/10⟩ }

/-- Witness for C1: at the concrete zero-mass contact the resolver reaches
the unguarded division. -/
theorem C1_zero_mass_impulse_division_reached_witness :
    (exZeroMassPair.physicsA.mass + exZeroMassPair.physicsB.mass = 0) ∧
    ResolveCollision exZeroMassPair ⟨0, 1, 0⟩ (1/10) = none :=
  ⟨by norm_num [exZeroMassPair],
    C1_zero_mass_impulse_division_reached exZeroMassPair ⟨0, 1, 0⟩ (1/10)
      (by norm_num [exZeroMassPair])
      (by norm_num [exZeroMassPair, Vec3.dot, Vec3.sub])⟩

/-! ### Claim C9 -/

/-- C9: when the bodies are already separating (`v_n > 0`), the resolver
returns with the velocities and both `isGrounded` flags untouched (the whole
physics components are unchanged), while the mass-weighted positional
correction has still been applied whenever `massA + massB > 0`. -/
theorem C9_separating_contact_position_only (s : PairState) (n : Vec3 ℚ)
    (d : ℚ)
    (hv : 0 < Vec3.dot (Vec3.sub s.physicsB.velocity s.physicsA.velocity) n) :
    ResolveCollision s n d =
      some { s with
        transformA :=
          if 0 < s.physicsA.mass + s.physicsB.mass then
            { s.transformA with
                position := s.transformA.position.sub (Vec3.smul (d * (s.physicsB.mass / (s.physicsA.mass + s.physicsB.mass))) n) }
          else s.transformA,
        transformB :=
          if 0 < s.physicsA.mass + s.physicsB.mass then
            { s.transformB with
                position := s.transformB.position.add (Vec3.smul (d * (s.physicsA.mass / (s.physicsA.mass + s.physicsB.mass))) n) }
          else s.transformB } := by
  simp only [ResolveCollision]
  rw [if_pos hv]

/-- A separating contact: B moves away from A along the normal. -/
def exSepPair : PairState :=
  { transformA := ⟨⟨0, 0, 0⟩, ⟨0, 0, 0⟩, ⟨1, 1, 1⟩⟩,
    physicsA := ⟨⟨0, 0, 0⟩, ⟨0, 0, 0⟩, 1, true, true, 3/10, 8/10⟩,
    transformB := ⟨⟨0, 1, 0⟩, ⟨0, 0, 0⟩, ⟨1, 1, 1⟩⟩,
    physicsB := ⟨⟨0, 1, 0⟩, ⟨0, 0, 0⟩, 1, true, false, 3/10, 8/10⟩ }

/-- Witness for C9: the concrete separating contact keeps both physics
components (velocities, grounded flags) and only moves the positions apart. -/
theorem C9_separating_contact_position_only_witness :
    (0 < Vec3.dot (Vec3.sub exSepPair.physicsB.velocity
      exSepPair.physicsA.velocity) ⟨0, 1, 0⟩) ∧
    ResolveCollision exSepPair ⟨0, 1, 0⟩ (1/10) =
      some { exSepPair with
        transformA := ⟨⟨0, -1/20, 0⟩, ⟨0, 0, 0⟩, ⟨1, 1, 1⟩⟩,
        transformB := ⟨⟨0, 21/20, 0⟩, ⟨0, 0, 0⟩, ⟨1, 1, 1⟩⟩ } := by
  constructor
  · norm_num [exSepPair, Vec3.dot, Vec3.sub]
  · rw [C9_separating_contact_position_only exSepPair ⟨0, 1, 0⟩ (1/10)
      (by norm_num [exSepPair, Vec3.dot, Vec3.sub])]
    norm_num [exSepPair, Vec3.smul, Vec3.sub, Vec3.add]

/-! ### Claim C8 -/

/-- C8: `ResolveCollision` never clears a grounded flag (it only ever sets
one); gravity application does not touch the flag; and in the terrain
handler the flag can come out `false` only if it went in `false` or the body
was in the not-colliding branch — which conversely always clears it. So
across a `Step`, a grounded flag is cleared exactly by terrain-loss, never by
dynamic-dynamic separation. -/
theorem C8_grounded_cleared_only_by_terrain_loss :
    (∀ (s : PairState) (n : Vec3 ℚ) (d : ℚ) (s' : PairState),
        ResolveCollision s n d = some s' →
        (s.physicsA.isGrounded = true → s'.physicsA.isGrounded = true) ∧
        (s.physicsB.isGrounded = true → s'.physicsB.isGrounded = true)) ∧
    (∀ (g : Vec3 ℚ) (p : PhysicsComponent) (dt : ℚ),
        (ApplyGravity g p dt).isGrounded = p.isGrounded) ∧
    (∀ (terrain : TerrainComponent) (tt t : TransformComponent)
        (p : PhysicsComponent) (c : ColliderComponent),
        (HandleTerrainCollision terrain tt t p c).2.isGrounded = false →
        p.isGrounded = false ∨
          ¬ t.position.y - c.radius ≤
            GetTerrainHeightAt terrain tt t.position.x t.position.z) ∧
    (∀ (terrain : TerrainComponent) (tt t : TransformComponent)
        (p : PhysicsComponent) (c : ColliderComponent),
        ¬ t.position.y - c.radius ≤
            GetTerrainHeightAt terrain tt t.position.x t.position.z →
        (HandleTerrainCollision terrain tt t p c).2.isGrounded = false) := by
  refine ⟨?_, ?_, ?_, ?_⟩
  · intro s n d s' h
    simp only [ResolveCollision] at h
    split at h
    · have h' := Option.some.inj h
      subst h'
      exact ⟨fun hp => hp, fun hp => hp⟩
    · split at h
      · simp at h
      · have h' := Option.some.inj h
        subst h'
        constructor
        · intro hp
          simp [hp]
        · intro hp
          simp [hp]
  · intro g p dt
    rfl
  · intro terrain tt t p c h
    by_cases hcol : t.position.y - c.radius ≤
        GetTerrainHeightAt terrain tt t.position.x t.position.z
    · by_cases hv : p.velocity.y < 0
      · rw [handleTerrain_bounce_of terrain tt t p c _ rfl hcol hv] at h
        simp at h
      · rw [handleTerrain_still_of terrain tt t p c _ rfl hcol (not_lt.mp hv)] at h
        exact Or.inl h
    · exact Or.inr hcol
  · intro terrain tt t p c hmiss
    rw [handleTerrain_miss_of terrain tt t p c _ rfl hmiss]

/-- A head-on contact between two unit-mass bodies, A already grounded. -/
def exResolvePair : PairState :=
  { transformA := ⟨⟨0, 0, 0⟩, ⟨0, 0, 0⟩, ⟨1, 1, 1⟩⟩,
    physicsA := ⟨⟨0, 0, 0⟩, ⟨0, 0, 0⟩, 1, false, true, 0, 1⟩,
    transformB := ⟨⟨0, 1, 0⟩, ⟨0, 0, 0⟩, ⟨1, 1, 1⟩⟩,
    physicsB := ⟨⟨0, -1, 0⟩, ⟨0, 0, 0⟩, 1, false, false, 0, 1⟩ }

/-- The resolver's output on `exResolvePair` with normal `(0,1,0)` and zero
penetration: both bodies end with velocity `(0,-1/2,0)` and grounded. -/
def exResolveOut : PairState :=
  { transformA := ⟨⟨0, 0, 0⟩, ⟨0, 0, 0⟩, ⟨1, 1, 1⟩⟩,
    physicsA := ⟨⟨0, -1/2, 0⟩, ⟨0, 0, 0⟩, 1, false, true, 0, 1⟩,
    transformB := ⟨⟨0, 1, 0⟩, ⟨0, 0, 0⟩, ⟨1, 1, 1⟩⟩,
    physicsB := ⟨⟨0, -1/2, 0⟩, ⟨0, 0, 0⟩, 1, false, true, 0, 1⟩ }

/-- Witness for C8 at a concrete impulse-applying contact: body A enters
grounded and leaves grounded. -/
theorem C8_grounded_cleared_only_by_terrain_loss_witness :
    exResolvePair.physicsA.isGrounded = true ∧
    exResolveOut.physicsA.isGrounded = true := by
  have hres : ResolveCollision exResolvePair ⟨0, 1, 0⟩ 0 = some exResolveOut := by
    norm_num [ResolveCollision, exResolvePair, exResolveOut, Vec3.dot,
      Vec3.sub, Vec3.add, Vec3.smul, Vec3.sqLen]
  exact ⟨rfl,
    (C8_grounded_cleared_only_by_terrain_loss.1 exResolvePair ⟨0, 1, 0⟩ 0
      exResolveOut hres).1 rfl⟩

/-! ### Claim C5 -/

/-- C5: the box-box test returns a contact iff all three per-axis overlaps
are strictly positive, and then the reported penetration is the minimum of
the three overlaps (ties included) and the reported normal is a ± unit axis
achieving that minimum, with its sign chosen by the sign of `delta` along
that axis. The abbreviation hypotheses name the quantities the source
computes. -/
theorem C5_box_box_minimum_overlap (tA : TransformComponent)
    (cA : ColliderComponent) (tB : TransformComponent) (cB : ColliderComponent)
    (dx dy dz ox oy oz : ℚ)
    (hdx : dx = tB.position.x - tA.position.x)
    (hdy : dy = tB.position.y - tA.position.y)
    (hdz : dz = tB.position.z - tA.position.z)
    (hox : ox = 1/2 * (cA.size.x * tA.scale.x) + 1/2 * (cB.size.x * tB.scale.x) - |dx|)
    (hoy : oy = 1/2 * (cA.size.y * tA.scale.y) + 1/2 * (cB.size.y * tB.scale.y) - |dy|)
    (hoz : oz = 1/2 * (cA.size.z * tA.scale.z) + 1/2 * (cB.size.z * tB.scale.z) - |dz|) :
    ((CheckBoxBoxCollision tA cA tB cB).isSome ↔ 0 < ox ∧ 0 < oy ∧ 0 < oz) ∧
    (∀ n p, CheckBoxBoxCollision tA cA tB cB = some (n, p) →
      p = min ox (min oy oz) ∧
      ((ox = p ∧ n = ⟨if 0 < dx then 1 else -1, 0, 0⟩) ∨
       (oy = p ∧ n = ⟨0, if 0 < dy then 1 else -1, 0⟩) ∨
       (oz = p ∧ n = ⟨0, 0, if 0 < dz then 1 else -1⟩))) := by
  simp only [CheckBoxBoxCollision, Vec3.smul, Vec3.hmul, Vec3.sub]
  simp only [← hdx, ← hdy, ← hdz]
  simp only [← hox, ← hoy, ← hoz]
  by_cases h1 : 0 < ox ∧ 0 < oy ∧ 0 < oz
  · rw [if_pos h1]
    by_cases h2 : ox < oy ∧ ox < oz
    · rw [if_pos h2]
      refine ⟨by simp [h1], ?_⟩
      intro n p hnp
      have h' := Option.some.inj hnp
      injection h' with hn hp
      subst hn hp
      exact ⟨(min_eq_left (le_min h2.1.le h2.2.le)).symm, Or.inl ⟨rfl, rfl⟩⟩
    · rw [if_neg h2]
      by_cases h3 : oy < oz
      · rw [if_pos h3]
        refine ⟨by simp [h1], ?_⟩
        intro n p hnp
        have h' := Option.some.inj hnp
        injection h' with hn hp
        subst hn hp
        have hyx : oy ≤ ox := by
          rcases not_and_or.mp h2 with h | h
          · exact not_lt.mp h
          · have := not_lt.mp h
            linarith
        refine ⟨?_, Or.inr (Or.inl ⟨rfl, rfl⟩)⟩
        rw [min_eq_left h3.le, min_eq_right hyx]
      · rw [if_neg h3]
        refine ⟨by simp [h1], ?_⟩
        intro n p hnp
        have h' := Option.some.inj hnp
        injection h' with hn hp
        subst hn hp
        have hzy : oz ≤ oy := not_lt.mp h3
        have hzx : oz ≤ ox := by
          rcases not_and_or.mp h2 with h | h
          · have := not_lt.mp h
            linarith
          · exact not_lt.mp h
        refine ⟨?_, Or.inr (Or.inr ⟨rfl, rfl⟩)⟩
        rw [min_eq_right hzy, min_eq_right hzx]
  · rw [if_neg h1]
    exact ⟨by simp [h1], fun n p hnp => Option.noConfusion hnp⟩

/-- A unit box collider. -/
def exBoxC : ColliderComponent := ⟨ColliderType.BOX, ⟨0, 0, 0⟩, ⟨1, 1, 1⟩, 1/2⟩

/-- A second unit box shifted by `0.9` on x: overlap `(0.1, 1, 1)`. -/
def exBoxT2 : TransformComponent := ⟨⟨9/10, 0, 0⟩, ⟨0, 0, 0⟩, ⟨1, 1, 1⟩⟩

/-- Witness for C5: the concrete pair collides with normal `(1,0,0)` and
penetration `0.1`, which is the minimum overlap. -/
theorem C5_box_box_minimum_overlap_witness :
    CheckBoxBoxCollision exTT exBoxC exBoxT2 exBoxC = some (⟨1, 0, 0⟩, 1/10) ∧
    (1/10 : ℚ) = min (1/10) (min 1 1) := by
  have habs : |(9/10 : ℚ)| = 9/10 := abs_of_pos (by norm_num)
  have hsome : CheckBoxBoxCollision exTT exBoxC exBoxT2 exBoxC =
      some (⟨1, 0, 0⟩, 1/10) := by
    norm_num [CheckBoxBoxCollision, exTT, exBoxT2, exBoxC, Vec3.smul,
      Vec3.hmul, Vec3.sub, habs]
  refine ⟨hsome, ?_⟩
  exact ((C5_box_box_minimum_overlap exTT exBoxC exBoxT2 exBoxC (9/10) 0 0
      (1/10) 1 1
      (by norm_num [exTT, exBoxT2]) (by norm_num [exTT, exBoxT2])
      (by norm_num [exTT, exBoxT2])
      (by norm_num [exTT, exBoxT2, exBoxC, habs])
      (by norm_num [exTT, exBoxT2, exBoxC])
      (by norm_num [exTT, exBoxT2, exBoxC])).2
    ⟨1, 0, 0⟩ (1/10) hsome).1

/-! ### Claim C6 -/

/-- C6: the sphere-sphere test reports a contact iff
`|posB - posA| < radiusA + radiusB`, and then the normal is
`normalize(posB - posA)` (pointing from A to B) and the penetration is
`(radiusA + radiusB) - |posB - posA|`. -/
theorem C6_sphere_sphere (posA posB : Vec3 ℝ) (radiusA radiusB : ℝ) :
    ((CheckSphereSphereCollision posA posB radiusA radiusB).isSome ↔
      (posB.sub posA).len < radiusA + radiusB) ∧
    (∀ n p, CheckSphereSphereCollision posA posB radiusA radiusB = some (n, p) →
      n = (posB.sub posA).normalize ∧
      p = radiusA + radiusB - (posB.sub posA).len) := by
  simp only [CheckSphereSphereCollision]
  by_cases h : (posB.sub posA).len < radiusA + radiusB
  · rw [if_pos h]
    refine ⟨by simp [h], ?_⟩
    intro n p hnp
    have h' := Option.some.inj hnp
    injection h' with hn hp
    exact ⟨hn.symm, hp.symm⟩
  · rw [if_neg h]
    exact ⟨by simp [h], fun n p hnp => Option.noConfusion hnp⟩

/-- Witness for C6 at the spec's concrete instance: radius-1 spheres whose
centers are `1.5` apart collide with normal `(1,0,0)` and penetration `1/2`. -/
theorem C6_sphere_sphere_witness :
    (CheckSphereSphereCollision ⟨0, 0, 0⟩ ⟨3/2, 0, 0⟩ 1 1).isSome = true ∧
    CheckSphereSphereCollision ⟨0, 0, 0⟩ ⟨3/2, 0, 0⟩ 1 1 =
      some (⟨1, 0, 0⟩, 1/2) := by
  have hsq : Vec3.sqLen (Vec3.sub (⟨3/2, 0, 0⟩ : Vec3 ℝ) ⟨0, 0, 0⟩) = 9/4 := by
    norm_num [Vec3.sqLen, Vec3.dot, Vec3.sub]
  have hlen : Vec3.len (Vec3.sub (⟨3/2, 0, 0⟩ : Vec3 ℝ) ⟨0, 0, 0⟩) = 3/2 := by
    rw [Vec3.len, hsq, show (9/4 : ℝ) = (3/2)^2 by norm_num,
      Real.sqrt_sq (by norm_num : (0:ℝ) ≤ 3/2)]
  constructor
  · exact (C6_sphere_sphere ⟨0, 0, 0⟩ ⟨3/2, 0, 0⟩ 1 1).1.mpr
      (by rw [hlen]; norm_num)
  · simp only [CheckSphereSphereCollision]
    rw [if_pos (by rw [hlen]; norm_num : Vec3.len
      (Vec3.sub (⟨3/2, 0, 0⟩ : Vec3 ℝ) ⟨0, 0, 0⟩) < 1 + 1)]
    rw [Vec3.normalize, hlen]
    norm_num [Vec3.smul, Vec3.sub]

/-- A body inside the flat terrain `terrA` (bottom at `-1/5`). -/
def exBodyT7 : TransformComponent := ⟨⟨0, 3/10, 0⟩, ⟨0, 0, 0⟩, ⟨1, 1, 1⟩⟩

/-- Downward-moving physics state with nontrivial restitution and friction. -/
def exBodyP7 : PhysicsComponent := ⟨⟨2, -1, 3⟩, ⟨0, 0, 0⟩, 1, true, false, 3/10, 1/2⟩

/-- Upward-moving physics state with a stale grounded flag. -/
def exBodyP10 : PhysicsComponent := ⟨⟨2, 1, 3⟩, ⟨0, 0, 0⟩, 1, true, true, 3/10, 1/2⟩

/-- Witness for C7: the concrete bounce snaps `y` to `1/2`, reflects
`velocity.y` to `3/10`, halves the horizontal velocity and grounds the
body. -/
theorem C7_terrain_bounce_response_witness :
    HandleTerrainCollision terrA exTT exBodyT7 exBodyP7 exCollider =
      (⟨⟨0, 1/2, 0⟩, ⟨0, 0, 0⟩, ⟨1, 1, 1⟩⟩,
       ⟨⟨1, 3/10, 3/2⟩, ⟨0, 0, 0⟩, 1, true, true, 3/10, 1/2⟩) := by
  have hth : GetTerrainHeightAt terrA exTT exBodyT7.position.x
      exBodyT7.position.z = 0 := by
    simpa [terrA, exTT] using GetTerrainHeightAt_one_by_one 1 1 0 exTT
      exBodyT7.position.x exBodyT7.position.z
  rw [C7_terrain_bounce_response terrA exTT exBodyT7 exBodyP7 exCollider
    (by rw [hth]; norm_num [exBodyT7, exCollider]) (by norm_num [exBodyP7])]
  rw [hth]
  have habs : |(3/10 : ℚ)| = 3/10 := abs_of_pos (by norm_num)
  norm_num [exBodyT7, exBodyP7, exCollider, habs]

/-- Witness for C10: colliding (bottom `-1/5` below height `0`) but moving
upward, so nothing changes and the stale grounded flag survives. -/
theorem C10_colliding_upward_no_mutation_witness :
    HandleTerrainCollision terrA exTT exBodyT7 exBodyP10 exCollider =
      (exBodyT7, exBodyP10) := by
  have hth : GetTerrainHeightAt terrA exTT exBodyT7.position.x
      exBodyT7.position.z = 0 := by
    simpa [terrA, exTT] using GetTerrainHeightAt_one_by_one 1 1 0 exTT
      exBodyT7.position.x exBodyT7.position.z
  exact C10_colliding_upward_no_mutation terrA exTT exBodyT7 exBodyP10
    exCollider (by rw [hth]; norm_num [exBodyT7, exCollider])
    (by norm_num [exBodyP10])
